import Mathlib

/-!
Verification of the layered error-propagation core and user feature of
go-ddd-example, shallowly embedded from the Go source.

Modelling conventions:
* Go `error` values form the inductive `GoError`; the `goNil` constructor is
  the nil error.  Each custom error type (`ImplModelError`,
  `ImplRepositoryError`, `ImplServiceError`, `ImplUseCaseError`,
  `ImplHandlerError`) is one constructor carrying the same fields as the Go
  struct.  `wrapped` is the error produced by `fmt.Errorf` with a `%w` verb
  (the only unwrappable error in the repository, returned by
  `NotFoundError`).
* `errors.As(err, &target)` walks the unwrap chain.  Only `wrapped` has an
  `Unwrap` method; the custom Impl types do not, and each Impl type
  implements exactly its own interface (their `Context()` accessors have
  different result types), so the walk matches exactly the corresponding
  constructor.
* `uuid.UUID` is modelled as `Nat` (the 128-bit value), `time.Time` as `Nat`
  nanoseconds where `0` is the zero value; `time.Now()` results and freshly
  generated UUIDs enter as explicit parameters.
* Writing a JSON response is modelled by returning the response value;
  returning without writing is `none`.
-/

/-- `ServiceErrorContext` constants from share/custom_error (iota order). -/
inductive ServiceErrorContext where
  | unexpected
  | repository
  | validation
  deriving DecidableEq, Repr

/-- `UseCaseErrorContext` constants from share/custom_error (iota order). -/
inductive UseCaseErrorContext where
  | unexpected
  | parseError
  | notFound
  | conflict
  | database
  | invalidInput
  deriving DecidableEq, Repr

/-- `HandlerErrorContext` constants from share/custom_error (iota order). -/
inductive HandlerErrorContext where
  | parseError
  | useCase
  | internalService
  deriving DecidableEq, Repr

/-- Go `error` values occurring in the repository.  `goNil` is the nil error;
`base` is an opaque underlying error (driver error, `uuid.Parse` error, ...);
`wrapped pre inner` is `fmt.Errorf("<pre>%w", inner)`; the `impl*`
constructors are the custom error structs of share/custom_error. -/
inductive GoError where
  | goNil
  | base (msg : String)
  | wrapped (pre : String) (inner : GoError)
  | implModelError (inner : GoError) (msg : String)
  | implRepositoryError (inner : GoError) (msg : String)
  | implServiceError (context : ServiceErrorContext) (inner : GoError) (msg : String)
  | implUseCaseError (context : UseCaseErrorContext) (inner : GoError) (msg : String)
  | implHandlerError (context : HandlerErrorContext) (inner : GoError) (msg : String)
  deriving DecidableEq, Repr

namespace GoError

/-- The `Error()` string of each error value, following the `fmt.Errorf`
format strings in the source.  `goNil` only ever appears as a `%w` operand,
which fmt renders as `%!w(<nil>)`. -/
def errString : GoError → String
  | .goNil => "%!w(<nil>)"
  | .base m => m
  | .wrapped pre inner => pre ++ inner.errString
  | .implModelError i m =>
      (if m = "" then "ModelError: " else "ModelError: " ++ m ++ ": ") ++ i.errString
  | .implRepositoryError i m =>
      (if m = "" then "RepositoryError: " else "RepositoryError: " ++ m ++ ": ") ++ i.errString
  | .implServiceError _ i m =>
      (if m = "" then "ServiceError: " else "ServiceError: " ++ m ++ ": ") ++ i.errString
  | .implUseCaseError _ i m =>
      (if m = "" then "UseCaseError: " else "UseCaseError: " ++ m ++ ": ") ++ i.errString
  | .implHandlerError _ i m =>
      (if m = "" then "HandlerError: " else "HandlerError: " ++ m ++ ": ") ++ i.errString

end GoError

/-- `NewModelError` (share/custom_error/model_error.go): note the source
stores the empty string, not `msg`. -/
def NewModelError (inner : GoError) (msg : String) : GoError :=
  .implModelError inner ""

/-- `NewModelErrorWithMessage`. -/
def NewModelErrorWithMessage (inner : GoError) (msg : String) : GoError :=
  .implModelError inner msg

/-- `NewRepositoryError`. -/
def NewRepositoryError (inner : GoError) : GoError :=
  .implRepositoryError inner ""

/-- `NewServiceError`. -/
def NewServiceError (context : ServiceErrorContext) (inner : GoError) : GoError :=
  .implServiceError context inner ""

/-- `NewUseCaseError`. -/
def NewUseCaseError (context : UseCaseErrorContext) (inner : GoError) : GoError :=
  .implUseCaseError context inner ""

/-- `NewHandlerError`. -/
def NewHandlerError (context : HandlerErrorContext) (inner : GoError) : GoError :=
  .implHandlerError context inner ""

/-- `NewHandlerErrorWithMessage`. -/
def NewHandlerErrorWithMessage (context : HandlerErrorContext) (inner : GoError)
    (msg : String) : GoError :=
  .implHandlerError context inner msg

/-- `errors.As(err, &serviceError)`: walk the unwrap chain for a value
implementing the `ServiceError` interface; only `ImplServiceError` does.
Returns the context together with the matched error value. -/
def findServiceError : GoError → Option (ServiceErrorContext × GoError)
  | .implServiceError c i m => some (c, .implServiceError c i m)
  | .wrapped _ inner => findServiceError inner
  | _ => none

/-- `errors.As(err, &useCaseError)`: walk the unwrap chain for a value
implementing the `UseCaseError` interface; only `ImplUseCaseError` does. -/
def findUseCaseError : GoError → Option (UseCaseErrorContext × GoError)
  | .implUseCaseError c i m => some (c, .implUseCaseError c i m)
  | .wrapped _ inner => findUseCaseError inner
  | _ => none

/-- `errors.As(err, &handlerError)`: walk the unwrap chain for a value
implementing the `HandlerError` interface; only `ImplHandlerError` does.
Returns the accessors the boundary uses: `Context()`, `Inner()`,
`Message()`. -/
def findHandlerError : GoError → Option (HandlerErrorContext × GoError × String)
  | .implHandlerError c i m => some (c, i, m)
  | .wrapped _ inner => findHandlerError inner
  | _ => none

/-- `ConvertServiceToUseCaseError` (share/custom_error/model_error.go). -/
def ConvertServiceToUseCaseError (err : GoError) : GoError :=
  if err = .goNil then .goNil
  else
    match findServiceError err with
    | none => .goNil
    | some (c, serviceError) =>
        match c with
        | .validation => NewUseCaseError .invalidInput serviceError
        | .repository => NewUseCaseError .database serviceError
        | _ => NewUseCaseError .unexpected serviceError

/-- `ConvertUseCaseErrorToHandlerError` (share/custom_error/handler_error.go). -/
def ConvertUseCaseErrorToHandlerError (err : GoError) : GoError :=
  if err = .goNil then .goNil
  else
    match findUseCaseError err with
    | none => .goNil
    | some (c, useCaseError) =>
        match c with
        | .invalidInput => NewHandlerError .parseError useCaseError
        | _ => NewHandlerError .useCase useCaseError

/-- `NotFoundError` (share/custom_error): `keyRepr` stands for the
`reflect`-computed `TypeName("quoted value")` rendering of the key. -/
def NotFoundError (resource : String) (keyRepr : String) (inner : GoError) : GoError :=
  if inner = .goNil then .base (resource ++ " not found " ++ keyRepr)
  else .wrapped (resource ++ " not found " ++ keyRepr ++ ": ") inner

/-- The JSON error body written by the boundary (server/handlers.go). -/
structure ErrorResponse where
  statusCode : Nat
  message : String
  details : String
  deriving DecidableEq, Repr

/-- `NewErrorResponse`. -/
def NewErrorResponse (statusCode : Nat) (message : String) (details : String) :
    ErrorResponse :=
  ⟨statusCode, message, details⟩

/-- `http.StatusText` restricted to the codes the boundary can produce. -/
def statusText : Nat → String
  | 400 => "Bad Request"
  | 404 => "Not Found"
  | 409 => "Conflict"
  | 422 => "Unprocessable Entity"
  | 500 => "Internal Server Error"
  | _ => ""

/-- `errorContextToStatusCode` (server/handlers.go).  The Go switch lists all
six constants explicitly (Unexpected and Database fall to 500); its `default`
arm also yields 500 and is unreachable for the constants the program
constructs. -/
def errorContextToStatusCode : UseCaseErrorContext → Nat
  | .parseError => 400
  | .notFound => 404
  | .conflict => 409
  | .invalidInput => 422
  | .unexpected => 500
  | .database => 500

/-- `CustomHTTPErrorHandler` (server/handlers.go).  `committed` is
`ctx.Response().Committed`; the result is the JSON error body written, or
`none` when the function returns without writing one. -/
def CustomHTTPErrorHandler (err : GoError) (committed : Bool) : Option ErrorResponse :=
  if err = .goNil then none
  else if committed then none
  else
    match findHandlerError err with
    | none => none
    | some (hctx, hinner, hmsg) =>
        if hctx = .parseError then
          some (NewErrorResponse 400 (statusText 400) hmsg)
        else
          match findUseCaseError hinner with
          | none => none
          | some (uctx, useCaseError) =>
              let statusCode := errorContextToStatusCode uctx
              some (NewErrorResponse statusCode (statusText statusCode)
                useCaseError.errString)

/-- `uuid.UUID` as its 128-bit value; `uuid.Nil` is `0`. -/
abbrev UUID := Nat

/-- `UserID` value object (feature/user/domain/model): wraps a `uuid.UUID`. -/
structure UserID where
  val : UUID
  deriving DecidableEq, Repr

/-- `UserName` value object: wraps a string. -/
structure UserName where
  val : String
  deriving DecidableEq, Repr

/-- `ParseUserName` (feature/user/domain/model): rejects exactly the empty
string, otherwise wraps the string unchanged.  Returns the Go pair
(value, ModelError). -/
def ParseUserName (name : String) : UserName × GoError :=
  if name = "" then (⟨""⟩, NewModelErrorWithMessage .goNil "Name is required")
  else (⟨name⟩, .goNil)

/-- `UserCommand` write-side aggregate (feature/user/domain/model/query.go). -/
structure UserCommand where
  id : UserID
  name : UserName
  createAt : Nat
  updateAt : Nat
  deriving DecidableEq, Repr

/-- The Go zero value `UserCommand\x7b\x7d` returned on the failure path of the
factory: nil identifier, empty name, zero timestamps. -/
def UserCommand.zeroValue : UserCommand :=
  ⟨⟨0⟩, ⟨""⟩, 0, 0⟩

/-- `CreateUserCommand` (feature/user/domain/model/query.go).  `freshId` is
the value produced by `NewUserID()` (`uuid.New()`), and `now1`, `now2` the
two `time.Now()` results used for `CreateAt` and `UpdateAt`. -/
def CreateUserCommand (name : String) (freshId : UUID) (now1 now2 : Nat) :
    UserCommand × GoError :=
  let (userName, err) := ParseUserName name
  if err ≠ .goNil then (UserCommand.zeroValue, err)
  else (⟨⟨freshId⟩, userName, now1, now2⟩, .goNil)

/-- Read-side `User` projection (feature/user/domain/model). -/
structure User where
  id : UUID
  name : String
  deriving DecidableEq, Repr

/-- `UserServiceImpl.CreateUser` (feature/user domain service).  The
repository call is the parameter `repoCreate` (its `RepositoryError` or
nil). -/
def ServiceCreateUser (repoCreate : UserCommand → GoError) (freshId : UUID)
    (now1 now2 : Nat) (name : String) : GoError :=
  let (cmd, err) := CreateUserCommand name freshId now1 now2
  if err ≠ .goNil then NewServiceError .validation err
  else
    let repoErr := repoCreate cmd
    if repoErr ≠ .goNil then NewServiceError .repository repoErr
    else .goNil

/-- `UserServiceImpl.GetUser`: forwards to the repository (parameter
`repoGet`), re-wrapping any error with the `Repository` service context. -/
def ServiceGetUser (repoGet : UUID → Option User × GoError) (id : UUID) :
    Option User × GoError :=
  let (user, err) := repoGet id
  if err ≠ .goNil then (none, NewServiceError .repository err)
  else (user, .goNil)

/-- `CreateUserInput` DTO (feature/user/usecase). -/
structure CreateUserInput where
  name : String
  deriving DecidableEq, Repr

/-- `UserUseCaseImpl.CreateUser` (feature/user/usecase): wraps any service
error with the `Unexpected` use-case context (it does not call
`ConvertServiceToUseCaseError`). -/
def UseCaseCreateUser (svcCreate : String → GoError) (input : CreateUserInput) :
    GoError :=
  let err := svcCreate input.name
  if err ≠ .goNil then NewUseCaseError .unexpected err
  else .goNil

/-- `GetUserInput` DTO (feature/user/usecase). -/
structure GetUserInput where
  id : UUID
  deriving DecidableEq, Repr

/-- `GetUserOutput` (feature/user/usecase): a struct with the single
untagged exported field `User *model.User`. -/
structure GetUserOutput where
  user : Option User
  deriving DecidableEq, Repr

/-- `UserUseCaseImpl.GetUser` (feature/user/usecase): any service failure is
wrapped as a `NotFound` use-case error around `NotFoundError`. -/
def UseCaseGetUser (svcGet : UUID → Option User × GoError) (input : GetUserInput) :
    GetUserOutput × GoError :=
  let (user, err) := svcGet input.id
  if err ≠ .goNil then
    (⟨none⟩, NewUseCaseError .notFound
      (NotFoundError "User" ("UUID(\x22" ++ toString input.id ++ "\x22)") err))
  else (⟨user⟩, .goNil)

/-- JSON values, for the bodies `encoding/json` produces. -/
inductive Json where
  | null
  | str (s : String)
  | obj (fields : List (String × Json))

/-- The top-level object keys of a JSON value, in order. -/
def Json.topKeys : Json → List String
  | .obj fields => fields.map Prod.fst
  | _ => []

/-- `encoding/json` marshalling of `model.User`: both fields carry json tags
`id` and `name`; the UUID marshals through `MarshalText` as its string
form. -/
def marshalUser (u : User) : Json :=
  .obj [("id", .str (toString u.id)), ("name", .str u.name)]

/-- `encoding/json` marshalling of `usecase.GetUserOutput`: the exported
field `User` has no json tag, so it marshals under the key `User`; a nil
pointer marshals as `null`. -/
def marshalGetUserOutput (o : GetUserOutput) : Json :=
  .obj [("User", match o.user with
    | some u => marshalUser u
    | none => .null)]

/-- A successful handler write: status plus JSON body. -/
structure HttpResponse where
  status : Nat
  body : Json

/-- `UserHandler.CreateUser` (feature/user/handler.go), after a successful
bind of the JSON body: the error it returns to the framework, or nil when it
wrote the 201 response. -/
def HandlerCreateUser (uc : CreateUserInput → GoError) (input : CreateUserInput) :
    GoError :=
  let err := uc input
  if err ≠ .goNil then NewHandlerError .useCase err
  else .goNil

/-- `UserHandler.GetUser` (feature/user/handler.go), after `uuid.Parse` of
the path parameter succeeded: either the 200 response it writes
(`ctx.JSON(http.StatusOK, user)` serialises the whole `GetUserOutput`
value `user`), or the error it returns. -/
def HandlerGetUser (uc : GetUserInput → GetUserOutput × GoError) (userId : UUID) :
    Except GoError HttpResponse :=
  let (user, err) := uc ⟨userId⟩
  if err ≠ .goNil then .error (NewHandlerError .useCase err)
  else .ok ⟨200, marshalGetUserOutput user⟩

/-- The POST /api/v1/private/users pipeline for a body that binds
successfully: handler → use case → service → value objects, with the
resulting framework error fed to `CustomHTTPErrorHandler` (response not yet
committed).  `none` means no error body was written (the 201 success). -/
def CreateUserPipeline (repoCreate : UserCommand → GoError) (freshId : UUID)
    (now1 now2 : Nat) (name : String) : Option ErrorResponse :=
  CustomHTTPErrorHandler
    (HandlerCreateUser
      (UseCaseCreateUser (ServiceCreateUser repoCreate freshId now1 now2)) ⟨name⟩)
    false

/-- C10: for every inner error and every string msg, NewModelError ignores
its msg argument — the constructed value equals
NewModelErrorWithMessage inner "" (and hence carries the empty message). -/
theorem newModelError_ignores_msg (inner : GoError) (msg : String) :
    NewModelError inner msg = NewModelErrorWithMessage inner "" := rfl

/-- C2: for every non-nil error wrapping a ServiceError,
ConvertServiceToUseCaseError returns a UseCaseError whose context is
InvalidInput for Validation, Database for Repository, and Unexpected for
every other service context, wrapping the matched service error. -/
theorem convertServiceToUseCaseError_context (err : GoError)
    (c : ServiceErrorContext) (se : GoError)
    (h : findServiceError err = some (c, se)) :
    ConvertServiceToUseCaseError err =
      GoError.implUseCaseError
        (match c with
          | .validation => .invalidInput
          | .repository => .database
          | .unexpected => .unexpected) se "" := by
  have hne : err ≠ .goNil := by
    intro he
    rw [he] at h
    simp [findServiceError] at h
  unfold ConvertServiceToUseCaseError
  rw [if_neg hne]
  cases c <;> simp [h, NewUseCaseError]

/-- Witness for C2 at a concrete Validation service error. -/
theorem convertServiceToUseCaseError_context_witness :
    ConvertServiceToUseCaseError (.implServiceError .validation .goNil "") =
      GoError.implUseCaseError .invalidInput (.implServiceError .validation .goNil "") "" :=
  convertServiceToUseCaseError_context (.implServiceError .validation .goNil "")
    .validation (.implServiceError .validation .goNil "") rfl

/-- C3: for every non-nil error wrapping a UseCaseError,
ConvertUseCaseErrorToHandlerError returns a HandlerError whose context is
ParseError for InvalidInput and UseCase for every other use-case context,
wrapping the matched use-case error. -/
theorem convertUseCaseErrorToHandlerError_context (err : GoError)
    (c : UseCaseErrorContext) (ue : GoError)
    (h : findUseCaseError err = some (c, ue)) :
    ConvertUseCaseErrorToHandlerError err =
      GoError.implHandlerError
        (match c with
          | .invalidInput => .parseError
          | _ => .useCase) ue "" := by
  have hne : err ≠ .goNil := by
    intro he
    rw [he] at h
    simp [findUseCaseError] at h
  unfold ConvertUseCaseErrorToHandlerError
  rw [if_neg hne]
  cases c <;> simp [h, NewHandlerError]

/-- Witness for C3 at a concrete InvalidInput use-case error. -/
theorem convertUseCaseErrorToHandlerError_context_witness :
    ConvertUseCaseErrorToHandlerError (.implUseCaseError .invalidInput .goNil "") =
      GoError.implHandlerError .parseError (.implUseCaseError .invalidInput .goNil "") "" :=
  convertUseCaseErrorToHandlerError_context (.implUseCaseError .invalidInput .goNil "")
    .invalidInput (.implUseCaseError .invalidInput .goNil "") rfl

/-- C1 counterexample: a HandlerError with UseCase context whose inner
UseCaseError has the ParseError context is answered with status 400 by
CustomHTTPErrorHandler, not 500 as the claim (NotFound, Conflict,
InvalidInput aside, "any other context gives 500") predicts. -/
theorem customHTTPErrorHandler_innerParseError_400 :
    CustomHTTPErrorHandler
        (.implHandlerError .useCase (.implUseCaseError .parseError .goNil "") "") false =
      some (NewErrorResponse 400 "Bad Request" "UseCaseError: %!w(<nil>)") ∧
    (400 : Nat) ≠ 500 := by
  constructor
  · rfl
  · decide

/-- C1 amended: for a HandlerError reaching CustomHTTPErrorHandler with the
response not committed — ParseError context answers 400; otherwise, when the
inner error wraps a UseCaseError, the status follows the inner context:
ParseError 400, NotFound 404, Conflict 409, InvalidInput 422, and Database or
Unexpected 500. -/
theorem customHTTPErrorHandler_status (hc : HandlerErrorContext) (hinner : GoError)
    (hmsg : String) :
    (hc = .parseError →
      CustomHTTPErrorHandler (.implHandlerError hc hinner hmsg) false =
        some (NewErrorResponse 400 (statusText 400) hmsg)) ∧
    (hc ≠ .parseError → ∀ uc ue, findUseCaseError hinner = some (uc, ue) →
      (CustomHTTPErrorHandler (.implHandlerError hc hinner hmsg) false).map
          ErrorResponse.statusCode =
        some (match uc with
          | .parseError => 400
          | .notFound => 404
          | .conflict => 409
          | .invalidInput => 422
          | .database => 500
          | .unexpected => 500)) := by
  constructor
  · intro hpe
    subst hpe
    rfl
  · intro hne uc ue h
    unfold CustomHTTPErrorHandler
    simp only [reduceCtorEq, if_false, Bool.false_eq_true, findHandlerError, if_neg hne]
    cases uc <;> simp [h, NewErrorResponse, errorContextToStatusCode]

/-- Witness for C1 at a concrete UseCase handler error with NotFound inner:
status 404. -/
theorem customHTTPErrorHandler_status_witness :
    (CustomHTTPErrorHandler
        (.implHandlerError .useCase (.implUseCaseError .notFound (.base "x") "") "")
        false).map ErrorResponse.statusCode = some 404 :=
  (customHTTPErrorHandler_status .useCase (.implUseCaseError .notFound (.base "x") "") "").2
    (by decide) .notFound (.implUseCaseError .notFound (.base "x") "") rfl

/-- C5: whenever the service GetUser fails (any non-nil error), the use case
returns no user and a UseCaseError with the NotFound context, which the
boundary status table sends to 404. -/
theorem useCaseGetUser_notFound (svcGet : UUID → Option User × GoError)
    (input : GetUserInput) (h : (svcGet input.id).2 ≠ .goNil) :
    (UseCaseGetUser svcGet input).1.user = none ∧
    (∃ inner, (UseCaseGetUser svcGet input).2 =
      GoError.implUseCaseError .notFound inner "") ∧
    errorContextToStatusCode .notFound = 404 := by
  unfold UseCaseGetUser
  rcases hp : svcGet input.id with ⟨user, err⟩
  rw [hp] at h
  replace h : err ≠ GoError.goNil := h
  simp only [hp]
  rw [if_pos h]
  exact ⟨rfl, ⟨_, rfl⟩, rfl⟩

/-- Witness for C5 at a concrete failing service lookup. -/
theorem useCaseGetUser_notFound_witness :
    (UseCaseGetUser (fun _ => (none, .base "connection refused")) ⟨7⟩).1.user = none ∧
    (∃ inner, (UseCaseGetUser (fun _ => (none, .base "connection refused")) ⟨7⟩).2 =
      GoError.implUseCaseError .notFound inner "") ∧
    errorContextToStatusCode .notFound = 404 :=
  useCaseGetUser_notFound (fun _ => (none, .base "connection refused")) ⟨7⟩ (by decide)

/-- C4: the POST pipeline at body name "" reaches the boundary as status 500
(the use case wraps the Validation service error with the Unexpected
context instead of applying ConvertServiceToUseCaseError), for any
repository behaviour and any generated id and timestamps. -/
theorem createUserPipeline_emptyName_500 (repoCreate : UserCommand → GoError)
    (freshId : UUID) (now1 now2 : Nat) :
    (CreateUserPipeline repoCreate freshId now1 now2 "").map ErrorResponse.statusCode =
      some 500 := rfl

/-- C6 counterexample: a non-nil error reaching CustomHTTPErrorHandler
uncommitted can produce no JSON body at all — both for a plain error that
wraps no HandlerError and for a UseCase-context HandlerError whose inner does
not wrap a UseCaseError (where the claim says a 500 is still produced). -/
theorem customHTTPErrorHandler_skip_counterexample :
    CustomHTTPErrorHandler (.implHandlerError .useCase (.base "boom") "") false = none ∧
    CustomHTTPErrorHandler (.base "boom") false = none := by
  decide

/-- C6 amended: whenever CustomHTTPErrorHandler does write a JSON body on an
uncommitted response, its status is one of 400, 404, 409, 422, 500; but when
the error wraps no HandlerError, or a non-ParseError HandlerError has an
inner that does not wrap a UseCaseError, the function returns without
writing any response (no generic 500 is produced). -/
theorem customHTTPErrorHandler_range :
    (∀ err r, CustomHTTPErrorHandler err false = some r →
      r.statusCode = 400 ∨ r.statusCode = 404 ∨ r.statusCode = 409 ∨
      r.statusCode = 422 ∨ r.statusCode = 500) ∧
    (∀ hc hinner hmsg, hc ≠ HandlerErrorContext.parseError →
      findUseCaseError hinner = none →
      CustomHTTPErrorHandler (.implHandlerError hc hinner hmsg) false = none) := by
  constructor
  · intro err r h
    unfold CustomHTTPErrorHandler at h
    split at h
    · exact Option.noConfusion h
    · split at h
      · exact Option.noConfusion h
      · split at h
        · exact Option.noConfusion h
        · rename_i hctx hinner hmsg heq
          split at h
          · rw [Option.some_inj] at h
            subst h
            exact Or.inl rfl
          · split at h
            · exact Option.noConfusion h
            · rename_i uctx ue hueq
              rw [Option.some_inj] at h
              subst h
              cases uctx <;> simp [NewErrorResponse, errorContextToStatusCode]
  · intro hc hinner hmsg hne hnone
    unfold CustomHTTPErrorHandler
    simp [findHandlerError, hne, hnone]

/-- Witness for C6 at a concrete ParseError handler error (status 400). -/
theorem customHTTPErrorHandler_range_witness :
    (NewErrorResponse 400 "Bad Request" "m").statusCode = 400 ∨
    (NewErrorResponse 400 "Bad Request" "m").statusCode = 404 ∨
    (NewErrorResponse 400 "Bad Request" "m").statusCode = 409 ∨
    (NewErrorResponse 400 "Bad Request" "m").statusCode = 422 ∨
    (NewErrorResponse 400 "Bad Request" "m").statusCode = 500 :=
  customHTTPErrorHandler_range.1 (.implHandlerError .parseError .goNil "m")
    (NewErrorResponse 400 "Bad Request" "m") rfl

/-- C7: on a successful lookup the handler answers 200, but the JSON body
serialises the whole GetUserOutput value, so the user projection arrives
wrapped under the key "User" instead of as the bare object with keys "id"
and "name". -/
theorem handlerGetUser_wraps_output :
    HandlerGetUser (fun _ => (⟨some ⟨5, "Alice"⟩⟩, .goNil)) 5 =
      .ok ⟨200, .obj [("User", .obj [("id", .str "5"), ("name", .str "Alice")])]⟩ ∧
    Json.topKeys (marshalGetUserOutput ⟨some ⟨5, "Alice"⟩⟩) = ["User"] ∧
    Json.topKeys (marshalUser ⟨5, "Alice"⟩) = ["id", "name"] :=
  ⟨rfl, rfl, rfl⟩

/-- C8 counterexample: on the validation-failure path the factory hands its
caller the zero-value UserCommand, whose name is empty — so a UserCommand
with an empty name is reachable outside the model package. -/
theorem createUserCommand_zeroValue_reachable :
    ((CreateUserCommand "" 7 1 1).1).name.val = "" ∧
    (CreateUserCommand "" 7 1 1).1 = UserCommand.zeroValue := by
  decide

/-- C8 amended: a UserCommand returned by CreateUserCommand together with a
nil error has a non-empty name equal to the input and carries the freshly
generated identifier; only the failure path yields the zero-value command. -/
theorem createUserCommand_success_invariant (name : String) (freshId : UUID)
    (now1 now2 : Nat) (h : (CreateUserCommand name freshId now1 now2).2 = .goNil) :
    name ≠ "" ∧
    (CreateUserCommand name freshId now1 now2).1.name.val = name ∧
    (CreateUserCommand name freshId now1 now2).1.id.val = freshId := by
  by_cases hn : name = ""
  · subst hn
    simp [CreateUserCommand, ParseUserName, NewModelErrorWithMessage] at h
  · refine ⟨hn, ?_, ?_⟩ <;> simp [CreateUserCommand, ParseUserName, hn]

/-- Witness for the amended C8 at a concrete valid name. -/
theorem createUserCommand_success_invariant_witness :
    "Alice" ≠ "" ∧
    (CreateUserCommand "Alice" 7 1 2).1.name.val = "Alice" ∧
    (CreateUserCommand "Alice" 7 1 2).1.id.val = 7 :=
  createUserCommand_success_invariant "Alice" 7 1 2 rfl

/-- C9: with an empty name the factory fails with a non-nil ModelError and
returns the zero-value command; with a non-empty name and the (always
non-zero) clock readings it succeeds, the stored name equals the input, and
both timestamps are set. -/
theorem createUserCommand_spec (name : String) (freshId : UUID) (now1 now2 : Nat) :
    (name = "" →
      (CreateUserCommand name freshId now1 now2).2 ≠ GoError.goNil ∧
      (CreateUserCommand name freshId now1 now2).1 = UserCommand.zeroValue) ∧
    (name ≠ "" → 0 < now1 → 0 < now2 →
      (CreateUserCommand name freshId now1 now2).2 = GoError.goNil ∧
      (CreateUserCommand name freshId now1 now2).1.createAt = now1 ∧
      (CreateUserCommand name freshId now1 now2).1.createAt ≠ 0 ∧
      (CreateUserCommand name freshId now1 now2).1.updateAt = now2 ∧
      (CreateUserCommand name freshId now1 now2).1.updateAt ≠ 0 ∧
      (CreateUserCommand name freshId now1 now2).1.name.val = name) := by
  constructor
  · intro hn
    subst hn
    have hcmd : CreateUserCommand "" freshId now1 now2 =
        (UserCommand.zeroValue, GoError.implModelError .goNil "Name is required") := by
      simp [CreateUserCommand, ParseUserName, NewModelErrorWithMessage]
    rw [hcmd]
    exact ⟨by simp, rfl⟩
  · intro hn h1 h2
    have hcmd : CreateUserCommand name freshId now1 now2 =
        (⟨⟨freshId⟩, ⟨name⟩, now1, now2⟩, .goNil) := by
      simp [CreateUserCommand, ParseUserName, hn]
    rw [hcmd]
    exact ⟨rfl, rfl, h1.ne', rfl, h2.ne', rfl⟩

/-- Witness for C9 at the concrete name "Alice" and clock readings 1 and 2. -/
theorem createUserCommand_spec_witness :
    (CreateUserCommand "Alice" 7 1 2).2 = GoError.goNil ∧
    (CreateUserCommand "Alice" 7 1 2).1.createAt = 1 ∧
    (CreateUserCommand "Alice" 7 1 2).1.createAt ≠ 0 ∧
    (CreateUserCommand "Alice" 7 1 2).1.updateAt = 2 ∧
    (CreateUserCommand "Alice" 7 1 2).1.updateAt ≠ 0 ∧
    (CreateUserCommand "Alice" 7 1 2).1.name.val = "Alice" :=
  (createUserCommand_spec "Alice" 7 1 2).2 (by decide) (by decide) (by decide)
